import Mathlib

/-!
# Verification of the romio datagram-socket and credential-lookup code

A shallow embedding of `src/udp.rs` and `src/uds/ucred.rs`.

The external collaborators (the mio reactor behind `PollEvented`, the OS
syscalls `sendto`/`recvfrom`/`getsockopt`/`getpeereid`) are modelled as a
per-call environment oracle recording the outcome each external call would
return; the embedded functions are then deterministic functions of that
oracle, mirroring the Rust control flow line by line.
-/

namespace Romio

/-- The kind of an `io::Error`: `WouldBlock` is the one kind the poll loop
inspects; every other kind is collapsed into `other` with a numeric tag. -/
inductive ErrorKind where
  | wouldBlock
  | other (code : Nat)
  deriving DecidableEq, Repr

/-- An `io::Error` value: its kind plus an opaque payload so distinct errors
of the same kind remain distinguishable (pass-through must preserve both). -/
structure IOError where
  kind : ErrorKind
  payload : Nat
  deriving DecidableEq, Repr

/-- `Result<α, io::Error>`. -/
inductive IOResult (α : Type) where
  | ok (a : α)
  | err (e : IOError)
  deriving DecidableEq, Repr

/-- `Poll<α>` from `std::task`. -/
inductive PollResult (α : Type) where
  | Ready (a : α)
  | Pending
  deriving DecidableEq, Repr

/-- A socket address (IPv4 or IPv6 endpoint: address + port). -/
structure SocketAddr where
  v6 : Bool
  ip : Nat
  port : Nat
  deriving DecidableEq, Repr

/-- Modelled from the spec: the OS socket-option store behind the external
`mio::net::UdpSocket` (the configuration accessors in `udp.rs` are
synchronous pass-throughs to it; the store itself is not repository code
under `src/`). Setters write a field, getters read it back; `u32`-valued
options are stored reduced mod `2^32`. -/
structure MioUdpSocket where
  ttlOpt : Nat
  broadcastOpt : Bool
  multicastLoopV4Opt : Bool
  multicastLoopV6Opt : Bool
  multicastTtlV4Opt : Nat
  deriving DecidableEq, Repr

/-- The `PollEvented<mio::net::UdpSocket>` wrapper: its readiness bookkeeping
lives in the reactor (external), so only the wrapped socket is carried. -/
structure PollEvented where
  sock : MioUdpSocket
  deriving DecidableEq, Repr

/-- `romio::udp::UdpSocket { io: PollEvented<mio::net::UdpSocket> }`. -/
structure UdpSocket where
  io : PollEvented
  deriving DecidableEq, Repr

/-- Environment oracle for one call of `poll_send_to`: the outcome of
`io.poll_write_ready(cx)` (readiness modelled as `Unit`), the outcome the
non-blocking `send_to` syscall would return if issued, and the outcome
`clear_write_ready(cx)` would return if invoked. -/
structure SendEnv where
  writeReady : PollResult (IOResult Unit)
  sendResult : IOResult Nat
  clearWrite : IOResult Unit
  deriving DecidableEq, Repr

/-- Environment oracle for one call of `poll_recv_from`, analogously. -/
structure RecvEnv where
  readReady : PollResult (IOResult Unit)
  recvResult : IOResult (Nat × SocketAddr)
  clearRead : IOResult Unit
  deriving DecidableEq, Repr

/-- Observable outcome of one poll: what the function returns, how many
non-blocking syscall attempts it issued, and whether it invoked the
clear-readiness operation for its direction. -/
structure PollOutcome (α : Type) where
  result : PollResult (IOResult α)
  syscalls : Nat
  cleared : Bool
  deriving DecidableEq, Repr

/-- `UdpSocket::poll_send_to` (udp.rs:311-327):
`ready!(self.io.poll_write_ready(cx)?)`, then one `send_to` attempt;
`Ok(n)` completes with `n`; a `WouldBlock` error clears write readiness and
returns `Pending` (or the clear error if clearing fails); any other error
completes with that error. -/
def UdpSocket.poll_send_to (s : UdpSocket) (env : SendEnv) (buf : List Nat)
    (receiver : SocketAddr) : PollOutcome Nat :=
  match s, buf, receiver, env.writeReady with
  | _, _, _, .Pending => ⟨.Pending, 0, false⟩
  | _, _, _, .Ready (.err e) => ⟨.Ready (.err e), 0, false⟩
  | _, _, _, .Ready (.ok _) =>
    match env.sendResult with
    | .ok n => ⟨.Ready (.ok n), 1, false⟩
    | .err e =>
      if e.kind = ErrorKind.wouldBlock then
        match env.clearWrite with
        | .ok _ => ⟨.Pending, 1, true⟩
        | .err e2 => ⟨.Ready (.err e2), 1, true⟩
      else ⟨.Ready (.err e), 1, false⟩

/-- `UdpSocket::poll_recv_from` (udp.rs:329-344): the mirror image for the
read direction; success completes with the `(bytes, sender)` pair the
syscall returned. -/
def UdpSocket.poll_recv_from (s : UdpSocket) (env : RecvEnv)
    (buf : List Nat) : PollOutcome (Nat × SocketAddr) :=
  match s, buf, env.readReady with
  | _, _, .Pending => ⟨.Pending, 0, false⟩
  | _, _, .Ready (.err e) => ⟨.Ready (.err e), 0, false⟩
  | _, _, .Ready (.ok _) =>
    match env.recvResult with
    | .ok n => ⟨.Ready (.ok n), 1, false⟩
    | .err e =>
      if e.kind = ErrorKind.wouldBlock then
        match env.clearRead with
        | .ok _ => ⟨.Pending, 1, true⟩
        | .err e2 => ⟨.Ready (.err e2), 1, true⟩
      else ⟨.Ready (.err e), 1, false⟩

/-- The future returned by `UdpSocket::send_to` (udp.rs:416-420): it stores
the socket borrow, the payload and the target. -/
structure SendTo where
  socket : UdpSocket
  buf : List Nat
  target : SocketAddr
  deriving DecidableEq, Repr

/-- `UdpSocket::send_to` (udp.rs:110-116): pure constructor, no I/O. -/
def UdpSocket.send_to (s : UdpSocket) (buf : List Nat)
    (target : SocketAddr) : SendTo :=
  { buf := buf, target := target, socket := s }

/-- The future returned by `UdpSocket::recv_from` (udp.rs:437-440). -/
structure RecvFrom where
  socket : UdpSocket
  buf : List Nat
  deriving DecidableEq, Repr

/-- `UdpSocket::recv_from` (udp.rs:137-139): pure constructor, no I/O. -/
def UdpSocket.recv_from (s : UdpSocket) (buf : List Nat) : RecvFrom :=
  { buf := buf, socket := s }

/-- `impl Future for SendTo` (udp.rs:422-433): destructures the stored
fields and delegates to `poll_send_to` on the stored socket. -/
def SendTo.poll (f : SendTo) (env : SendEnv) : PollOutcome Nat :=
  f.socket.poll_send_to env f.buf f.target

/-- `impl Future for RecvFrom` (udp.rs:442-449): destructures and delegates
to `poll_recv_from` on the stored socket. -/
def RecvFrom.poll (f : RecvFrom) (env : RecvEnv) :
    PollOutcome (Nat × SocketAddr) :=
  f.socket.poll_recv_from env f.buf

/-- `mio::net::UdpSocket::set_ttl` on the modelled option store. -/
def MioUdpSocket.set_ttl (m : MioUdpSocket) (ttl : Nat) : MioUdpSocket :=
  { m with ttlOpt := ttl % 2 ^ 32 }

/-- `mio::net::UdpSocket::ttl` on the modelled option store. -/
def MioUdpSocket.ttl (m : MioUdpSocket) : Nat :=
  m.ttlOpt

/-- `mio::net::UdpSocket::set_broadcast` on the modelled option store. -/
def MioUdpSocket.set_broadcast (m : MioUdpSocket) (enabled : Bool) : MioUdpSocket :=
  { m with broadcastOpt := enabled }

/-- `mio::net::UdpSocket::broadcast` on the modelled option store. -/
def MioUdpSocket.broadcast (m : MioUdpSocket) : Bool :=
  m.broadcastOpt

/-- `UdpSocket::set_ttl` (udp.rs:233-235): `self.io.get_ref().set_ttl(ttl)`,
a synchronous pass-through. -/
def UdpSocket.set_ttl (s : UdpSocket) (ttl : Nat) : UdpSocket :=
  { s with io := { s.io with sock := s.io.sock.set_ttl ttl } }

/-- `UdpSocket::ttl` (udp.rs:225-227): `self.io.get_ref().ttl()`. -/
def UdpSocket.ttl (s : UdpSocket) : Nat :=
  s.io.sock.ttl

/-- `UdpSocket::set_broadcast` (udp.rs:154-156): pass-through. -/
def UdpSocket.set_broadcast (s : UdpSocket) (enabled : Bool) : UdpSocket :=
  { s with io := { s.io with sock := s.io.sock.set_broadcast enabled } }

/-- `UdpSocket::broadcast` (udp.rs:146-148): pass-through. -/
def UdpSocket.broadcast (s : UdpSocket) : Bool :=
  s.io.sock.broadcast

/-- `romio::uds::ucred::UCred { uid, gid }`. -/
structure UCred where
  uid : Nat
  gid : Nat
  deriving DecidableEq, Repr

/-- The native `libc::ucred` structure `{ pid, uid, gid }`. -/
structure LibcUcred where
  pid : Int
  uid : Nat
  gid : Nat
  deriving DecidableEq, Repr

/-- Environment oracle for one `getsockopt(SOL_SOCKET, SO_PEERCRED)` call:
its return value, the `ucred` structure and the `socklen_t` it wrote back,
and what `io::Error::last_os_error()` would produce afterwards. -/
structure GetsockoptEnv where
  ret : Int
  outUcred : LibcUcred
  outSize : Nat
  lastOsError : IOError
  deriving DecidableEq, Repr

/-- `impl_linux::get_peer_cred` (ucred.rs:34-68), past its assertions,
parameterised by `mem::size_of::<libc::ucred>()`: success exactly when the
syscall returned `0` and wrote back exactly the native size; otherwise
`Err(io::Error::last_os_error())`. -/
def impl_linux.get_peer_cred (ucredSize : Nat) (env : GetsockoptEnv) :
    IOResult UCred :=
  if env.ret = 0 ∧ env.outSize = ucredSize then
    .ok { uid := env.outUcred.uid, gid := env.outUcred.gid }
  else
    .err env.lastOsError

/-- `mem::size_of::<u32>()` in bytes. -/
def u32SizeBytes : Nat := 4

/-- `impl_linux::get_peer_cred` with its two runtime assertions
(ucred.rs:47-48) made explicit: `none` models a process abort from a failed
`assert!`, `some r` a normal return. `usizeBytes` is the platform's
`mem::size_of::<usize>()`. -/
def impl_linux.get_peer_cred_checked (usizeBytes ucredSize : Nat)
    (env : GetsockoptEnv) : Option (IOResult UCred) :=
  if u32SizeBytes ≤ usizeBytes ∧ ucredSize ≤ 2 ^ 32 - 1 then
    some (impl_linux.get_peer_cred ucredSize env)
  else
    none

/-- Environment oracle for one `getpeereid` call: its return value, the uid
and gid it wrote through the output parameters, and what
`io::Error::last_os_error()` would produce afterwards. -/
structure GetpeereidEnv where
  ret : Int
  outUid : Nat
  outGid : Nat
  lastOsError : IOError
  deriving DecidableEq, Repr

/-- `impl_macos::get_peer_cred` (ucred.rs:85-101): a zero return yields the
credentials filled through the output parameters, any non-zero return
yields `Err(io::Error::last_os_error())`. -/
def impl_macos.get_peer_cred (env : GetpeereidEnv) : IOResult UCred :=
  if env.ret = 0 then
    .ok { uid := env.outUid, gid := env.outGid }
  else
    .err env.lastOsError

end Romio

namespace Romio

/-- Sample socket used by witness instantiations. -/
def sampleSock : UdpSocket := ⟨⟨⟨64, false, false, false, 1⟩⟩⟩

/-- Sample address used by witness instantiations. -/
def sampleAddr : SocketAddr := ⟨false, 2130706433, 8080⟩

/-- C1: in any poll where the readiness check reports ready but the
non-blocking syscall returns a would-block error (and the reactor's
clear-readiness call itself succeeds), both `poll_send_to` and
`poll_recv_from` clear readiness for their direction and return
`Poll::Pending`; the would-block error is not surfaced as a completed
error result. -/
theorem c1_would_block_clears_and_pends
    (s : UdpSocket) (envS : SendEnv) (envR : RecvEnv) (buf : List Nat)
    (tgt : SocketAddr) (es er : IOError)
    (hw : envS.writeReady = .Ready (.ok ()))
    (hs : envS.sendResult = .err es) (hks : es.kind = .wouldBlock)
    (hcs : envS.clearWrite = .ok ())
    (hr : envR.readReady = .Ready (.ok ()))
    (hrr : envR.recvResult = .err er) (hkr : er.kind = .wouldBlock)
    (hcr : envR.clearRead = .ok ()) :
    (s.poll_send_to envS buf tgt).cleared = true ∧
    (s.poll_send_to envS buf tgt).result = .Pending ∧
    (s.poll_recv_from envR buf).cleared = true ∧
    (s.poll_recv_from envR buf).result = .Pending := by
  simp [UdpSocket.poll_send_to, UdpSocket.poll_recv_from, hw, hs, hks, hcs,
    hr, hrr, hkr, hcr]

/-- Witness for C1 at a concrete socket, buffer, address and environment. -/
theorem c1_witness :
    (sampleSock.poll_send_to ⟨.Ready (.ok ()), .err ⟨.wouldBlock, 0⟩, .ok ()⟩
        [7, 8] sampleAddr).result = .Pending ∧
    (sampleSock.poll_recv_from ⟨.Ready (.ok ()), .err ⟨.wouldBlock, 1⟩, .ok ()⟩
        [7, 8]).result = .Pending := by
  have h := c1_would_block_clears_and_pends sampleSock
    ⟨.Ready (.ok ()), .err ⟨.wouldBlock, 0⟩, .ok ()⟩
    ⟨.Ready (.ok ()), .err ⟨.wouldBlock, 1⟩, .ok ()⟩
    [7, 8] sampleAddr ⟨.wouldBlock, 0⟩ ⟨.wouldBlock, 1⟩
    rfl rfl rfl rfl rfl rfl rfl rfl
  exact ⟨h.2.1, h.2.2.2⟩

/-- C2: when the readiness check reports `Pending`, the poll returns
`Pending` having issued no syscall; when it reports ready, the poll issues
exactly one non-blocking syscall attempt — for both directions. -/
theorem c2_readiness_gates_syscall
    (s : UdpSocket) (envS : SendEnv) (envR : RecvEnv) (buf : List Nat)
    (tgt : SocketAddr) :
    (envS.writeReady = .Pending →
      (s.poll_send_to envS buf tgt).result = .Pending ∧
      (s.poll_send_to envS buf tgt).syscalls = 0) ∧
    (envS.writeReady = .Ready (.ok ()) →
      (s.poll_send_to envS buf tgt).syscalls = 1) ∧
    (envR.readReady = .Pending →
      (s.poll_recv_from envR buf).result = .Pending ∧
      (s.poll_recv_from envR buf).syscalls = 0) ∧
    (envR.readReady = .Ready (.ok ()) →
      (s.poll_recv_from envR buf).syscalls = 1) := by
  refine ⟨?_, ?_, ?_, ?_⟩
  · intro h
    simp [UdpSocket.poll_send_to, h]
  · intro h
    rcases hres : envS.sendResult with n | e
    · simp [UdpSocket.poll_send_to, h, hres]
    · by_cases hk : e.kind = ErrorKind.wouldBlock
      · rcases hcw : envS.clearWrite with u2 | e2 <;>
          simp [UdpSocket.poll_send_to, h, hres, hk, hcw]
      · simp [UdpSocket.poll_send_to, h, hres, hk]
  · intro h
    simp [UdpSocket.poll_recv_from, h]
  · intro h
    rcases hres : envR.recvResult with n | e
    · simp [UdpSocket.poll_recv_from, h, hres]
    · by_cases hk : e.kind = ErrorKind.wouldBlock
      · rcases hcr : envR.clearRead with u2 | e2 <;>
          simp [UdpSocket.poll_recv_from, h, hres, hk, hcr]
      · simp [UdpSocket.poll_recv_from, h, hres, hk]

/-- Witness for C2: not-ready poll issues no syscall, ready poll exactly one. -/
theorem c2_witness :
    (sampleSock.poll_send_to ⟨.Pending, .ok 2, .ok ()⟩ [7, 8]
        sampleAddr).syscalls = 0 ∧
    (sampleSock.poll_recv_from ⟨.Ready (.ok ()), .ok (2, sampleAddr), .ok ()⟩
        [7, 8]).syscalls = 1 := by
  have h := c2_readiness_gates_syscall sampleSock ⟨.Pending, .ok 2, .ok ()⟩
    ⟨.Ready (.ok ()), .ok (2, sampleAddr), .ok ()⟩ [7, 8] sampleAddr
  exact ⟨(h.1 rfl).2, h.2.2.2 rfl⟩

/-- C3: on the ready path, a successful syscall completes the send poll with
the returned byte count and the receive poll with the returned
(byte count, source address) pair. -/
theorem c3_success_completions
    (s : UdpSocket) (envS : SendEnv) (envR : RecvEnv) (buf : List Nat)
    (tgt : SocketAddr) (n m : Nat) (src : SocketAddr)
    (hw : envS.writeReady = .Ready (.ok ()))
    (hs : envS.sendResult = .ok n)
    (hr : envR.readReady = .Ready (.ok ()))
    (hv : envR.recvResult = .ok (m, src)) :
    (s.poll_send_to envS buf tgt).result = .Ready (.ok n) ∧
    (s.poll_recv_from envR buf).result = .Ready (.ok (m, src)) := by
  simp [UdpSocket.poll_send_to, UdpSocket.poll_recv_from, hw, hs, hr, hv]

/-- Witness for C3 at concrete byte counts and source address. -/
theorem c3_witness :
    (sampleSock.poll_send_to ⟨.Ready (.ok ()), .ok 2, .ok ()⟩ [7, 8]
        sampleAddr).result = .Ready (.ok 2) ∧
    (sampleSock.poll_recv_from ⟨.Ready (.ok ()), .ok (3, sampleAddr), .ok ()⟩
        [7, 8]).result = .Ready (.ok (3, sampleAddr)) :=
  c3_success_completions sampleSock ⟨.Ready (.ok ()), .ok 2, .ok ()⟩
    ⟨.Ready (.ok ()), .ok (3, sampleAddr), .ok ()⟩ [7, 8] sampleAddr
    2 3 sampleAddr rfl rfl rfl rfl

/-- C4: on the ready path, any syscall error other than would-block
completes the poll with exactly that error value, with no readiness
clearing and no further attempt within the poll. -/
theorem c4_error_passthrough
    (s : UdpSocket) (envS : SendEnv) (envR : RecvEnv) (buf : List Nat)
    (tgt : SocketAddr) (es er : IOError)
    (hw : envS.writeReady = .Ready (.ok ()))
    (hs : envS.sendResult = .err es) (hks : es.kind ≠ .wouldBlock)
    (hr : envR.readReady = .Ready (.ok ()))
    (hrr : envR.recvResult = .err er) (hkr : er.kind ≠ .wouldBlock) :
    (s.poll_send_to envS buf tgt).result = .Ready (.err es) ∧
    (s.poll_send_to envS buf tgt).cleared = false ∧
    (s.poll_send_to envS buf tgt).syscalls = 1 ∧
    (s.poll_recv_from envR buf).result = .Ready (.err er) ∧
    (s.poll_recv_from envR buf).cleared = false ∧
    (s.poll_recv_from envR buf).syscalls = 1 := by
  simp [UdpSocket.poll_send_to, UdpSocket.poll_recv_from, hw, hs, hks,
    hr, hrr, hkr]

/-- Witness for C4 at a concrete non-would-block error. -/
theorem c4_witness :
    (sampleSock.poll_send_to ⟨.Ready (.ok ()), .err ⟨.other 13, 5⟩, .ok ()⟩
        [7, 8] sampleAddr).result = .Ready (.err ⟨.other 13, 5⟩) ∧
    (sampleSock.poll_recv_from ⟨.Ready (.ok ()), .err ⟨.other 111, 9⟩, .ok ()⟩
        [7, 8]).result = .Ready (.err ⟨.other 111, 9⟩) := by
  have h := c4_error_passthrough sampleSock
    ⟨.Ready (.ok ()), .err ⟨.other 13, 5⟩, .ok ()⟩
    ⟨.Ready (.ok ()), .err ⟨.other 111, 9⟩, .ok ()⟩ [7, 8] sampleAddr
    ⟨.other 13, 5⟩ ⟨.other 111, 9⟩ rfl rfl (by decide) rfl rfl (by decide)
  exact ⟨h.1, h.2.2.2.1⟩

/-- C5: `send_to` and `recv_from` are pure constructors: they return the
operation future holding exactly the given socket, buffer and destination,
and the socket state embedded in the future equals the input socket. -/
theorem c5_constructors_are_pure
    (s : UdpSocket) (buf : List Nat) (tgt : SocketAddr) :
    s.send_to buf tgt = { socket := s, buf := buf, target := tgt } ∧
    (s.send_to buf tgt).socket = s ∧
    s.recv_from buf = { socket := s, buf := buf } ∧
    (s.recv_from buf).socket = s :=
  ⟨rfl, rfl, rfl, rfl⟩

/-- C9: writing a `u32` TTL value and reading it back returns that value,
and enabling broadcast then reading it back returns `true`, over the
modelled OS option store. -/
theorem c9_option_store_roundtrip
    (s : UdpSocket) (v : Nat) (hv : v < 2 ^ 32) :
    (s.set_ttl v).ttl = v ∧ (s.set_broadcast true).broadcast = true := by
  constructor
  · simp only [UdpSocket.set_ttl, UdpSocket.ttl, MioUdpSocket.set_ttl,
      MioUdpSocket.ttl]
    omega
  · rfl

/-- Witness for C9 at TTL value 5. -/
theorem c9_witness :
    (sampleSock.set_ttl 5).ttl = 5 ∧
    (sampleSock.set_broadcast true).broadcast = true :=
  c9_option_store_roundtrip sampleSock 5 (by norm_num)

/-- C10: polling a `SendTo` future is exactly `poll_send_to` on its stored
socket with its stored buffer and target, and polling a `RecvFrom` future
is exactly `poll_recv_from` with its stored buffer: the wrappers delegate
and add nothing. -/
theorem c10_future_wrappers_delegate
    (f : SendTo) (g : RecvFrom) (envS : SendEnv) (envR : RecvEnv) :
    f.poll envS = f.socket.poll_send_to envS f.buf f.target ∧
    g.poll envR = g.socket.poll_recv_from envR g.buf :=
  ⟨rfl, rfl⟩

/-- C6: the Linux option-based lookup succeeds exactly when `getsockopt`
returned zero and wrote back exactly the native `ucred` size, in which case
the returned credentials are the extracted uid/gid; any size mismatch
yields an error. -/
theorem c6_linux_success_iff
    (ucredSize : Nat) (env : GetsockoptEnv) (c : UCred) :
    (impl_linux.get_peer_cred ucredSize env = .ok c ↔
      env.ret = 0 ∧ env.outSize = ucredSize ∧
      c = { uid := env.outUcred.uid, gid := env.outUcred.gid }) ∧
    (env.outSize ≠ ucredSize →
      impl_linux.get_peer_cred ucredSize env = .err env.lastOsError) := by
  constructor
  · constructor
    · intro hok
      unfold impl_linux.get_peer_cred at hok
      by_cases h : env.ret = 0 ∧ env.outSize = ucredSize
      · rw [if_pos h] at hok
        exact ⟨h.1, h.2, (IOResult.ok.inj hok).symm⟩
      · rw [if_neg h] at hok
        exact absurd hok (by simp)
    · rintro ⟨h1, h2, h3⟩
      unfold impl_linux.get_peer_cred
      rw [if_pos ⟨h1, h2⟩, h3]
  · intro hne
    unfold impl_linux.get_peer_cred
    rw [if_neg (fun h => hne h.2)]

/-- Witness for C6: a well-sized reply succeeds with the extracted ids, a
mis-sized reply fails. -/
theorem c6_witness :
    impl_linux.get_peer_cred 12 ⟨0, ⟨4242, 1000, 1001⟩, 12, ⟨.other 13, 3⟩⟩ =
      .ok ⟨1000, 1001⟩ ∧
    impl_linux.get_peer_cred 12 ⟨0, ⟨4242, 1000, 1001⟩, 16, ⟨.other 13, 3⟩⟩ =
      .err ⟨.other 13, 3⟩ := by
  constructor
  · exact (c6_linux_success_iff 12 ⟨0, ⟨4242, 1000, 1001⟩, 12,
      ⟨.other 13, 3⟩⟩ ⟨1000, 1001⟩).1.mpr ⟨rfl, rfl, rfl⟩
  · exact (c6_linux_success_iff 12 ⟨0, ⟨4242, 1000, 1001⟩, 16,
      ⟨.other 13, 3⟩⟩ ⟨1000, 1001⟩).2 (by decide)

/-- C7: the macOS/BSD dedicated-syscall lookup succeeds with the
output-parameter uid/gid exactly when `getpeereid` returned zero, and any
non-zero return yields the OS last-error value. -/
theorem c7_macos_ret_discriminates
    (env : GetpeereidEnv) :
    (env.ret = 0 →
      impl_macos.get_peer_cred env =
        .ok { uid := env.outUid, gid := env.outGid }) ∧
    (env.ret ≠ 0 →
      impl_macos.get_peer_cred env = .err env.lastOsError) := by
  constructor
  · intro h
    simp [impl_macos.get_peer_cred, h]
  · intro h
    simp [impl_macos.get_peer_cred, h]

/-- Witness for C7: a zero return succeeds, a non-zero return fails with
the last OS error. -/
theorem c7_witness :
    impl_macos.get_peer_cred ⟨0, 501, 20, ⟨.other 22, 4⟩⟩ = .ok ⟨501, 20⟩ ∧
    impl_macos.get_peer_cred ⟨-1, 0, 0, ⟨.other 22, 4⟩⟩ =
      .err ⟨.other 22, 4⟩ := by
  constructor
  · exact (c7_macos_ret_discriminates ⟨0, 501, 20, ⟨.other 22, 4⟩⟩).1 rfl
  · exact (c7_macos_ret_discriminates ⟨-1, 0, 0, ⟨.other 22, 4⟩⟩).2 (by decide)

/-- C8: on any platform whose `usize` is at least 4 bytes and whose native
`ucred` is the 12-byte Linux layout, the runtime assertions in the Linux
lookup always hold, so the checked function never aborts: it returns the
ordinary result for every environment. -/
theorem c8_assertions_never_abort
    (usizeBytes ucredSize : Nat) (env : GetsockoptEnv)
    (hp : 4 ≤ usizeBytes) (hsz : ucredSize = 12) :
    impl_linux.get_peer_cred_checked usizeBytes ucredSize env =
      some (impl_linux.get_peer_cred ucredSize env) := by
  unfold impl_linux.get_peer_cred_checked
  rw [if_pos]
  exact ⟨hp, by rw [hsz]; norm_num⟩

/-- Witness for C8 on a 64-bit platform with the 12-byte `ucred`. -/
theorem c8_witness :
    impl_linux.get_peer_cred_checked 8 12
        ⟨0, ⟨4242, 1000, 1001⟩, 12, ⟨.other 13, 3⟩⟩ =
      some (.ok ⟨1000, 1001⟩) := by
  rw [c8_assertions_never_abort 8 12 ⟨0, ⟨4242, 1000, 1001⟩, 12,
    ⟨.other 13, 3⟩⟩ (by norm_num) rfl]
  decide

end Romio
